import Mathlib

/-!
Verification of the locate/wait/verify layer of the HabrUIAutotest repository.

The browser automation engine is modelled as an oracle environment `Env`:
each engine primitive (locator count, visibility query, enabled query,
wait_for, goto, load-state wait, frame access, click, screenshot) is a
function from a call-site key (a string naming the locator, and for some
repeated call sites a distinguishing marker) to an `Except Err` outcome.
A raised engine exception is an `Except.error`; Python `try/except Exception`
blocks are embedded as matches on the `Except` value.  The page and step
methods of the repository are translated statement by statement over this
oracle, so a method that guards a call converts an error into a value and a
method that does not guard it propagates the error in its result type.
-/

namespace HabrUI

/-- Failure categories an automation-engine call can raise. -/
inductive Err
  | timeout
  | crossOrigin
  | other
deriving DecidableEq, Repr

/-- Oracle environment standing for the browser session.  Keys are strings
naming the locator of the call (with a marker for distinct call sites on the
same locator); the natural number argument of `visible`, `waitFor` and
`loadState` is the timeout in milliseconds passed at the call site. -/
structure Env where
  count : String → Except Err Nat
  visible : String → Nat → Except Err Bool
  enabled : String → Except Err Bool
  waitFor : String → Nat → Except Err Unit
  gotoRes : String → Except Err Unit
  loadState : String → Nat → Except Err Unit
  urlHasFeed : Bool
  contentFrame : Except Err Bool
  frameLoad : Except Err Unit
  click : String → Except Err Unit
  screenshot : String → Except Err Unit
  evaluate : String → Except Err Unit

/-- Header element names iterated by MainPageSteps.verify_header_elements. -/
def headerElementNames : List String :=
  ["Все потоки", "Поиск", "Написать публикацию", "Настройки", "Войти"]

/-- Tab names iterated by MainPageSteps.verify_all_content_tabs. -/
def contentTabNames : List String :=
  ["Статьи", "Посты", "Новости", "Хабы", "Авторы", "Компании"]

/-- Menu option names from MainPage.get_all_menu_options. -/
def menuOptionNames : List String :=
  ["Что нового", "Бэкенд", "Фронтенд", "Администрирование", "Дизайн",
   "Менеджмент", "Маркетинг и контент", "Научпоп", "Разработка", "Все потоки"]

/-- Service link names from MainPage.get_all_service_links. -/
def serviceLinkNames : List String :=
  ["Хабр", "Q&A", "Карьера", "Курсы"]

/-- Social icon names from MainPage.get_all_social_icons. -/
def socialIconNames : List String :=
  ["VK", "Telegram", "Youtube", "Dzen"]

/-- Footer option names per section, from the section_map of
MainPageSteps.verify_footer_options; an unknown section name yields the
empty dictionary. -/
def footerSectionOptions : String → List String
  | "account" => ["Войти", "Регистрация"]
  | "sections" => ["Статьи", "Новости", "Хабы", "Компании", "Авторы", "Песочница"]
  | "information" => ["Устройство сайта", "Для авторов", "Для компаний",
                      "Документы", "Соглашение", "Конфиденциальность"]
  | "services" => ["Корпоративный блог", "Медийная реклама", "Нативные проекты",
                   "Образовательные программы", "Стартапам"]
  | _ => []

/-- Effectful map over a list in the `Except Err` monad, mirroring a Python
for-loop whose body may raise: the first raised error aborts the loop. -/
def mapME {α β : Type} (f : α → Except Err β) : List α → Except Err (List β)
  | [] => Except.ok []
  | a :: t =>
    match f a with
    | .error e => Except.error e
    | .ok b =>
      match mapME f t with
      | .error e => Except.error e
      | .ok r => Except.ok (b :: r)

/-- Per-element visible/clickable record used by the step-layer dictionaries. -/
structure VisClick where
  visible : Bool
  clickable : Bool
deriving DecidableEq, Repr

/-- The guarded per-element check pattern shared by verify_menu_options,
verify_services_section, verify_footer_options and verify_social_icons:
inside try: count; if count > 0: visible = is_visible(timeout=5000);
clickable = is_enabled() if visible else False; else both False;
except Exception: both False. -/
def visClickCheck (c : Except Err Nat) (v : Except Err Bool)
    (en : Except Err Bool) : VisClick :=
  match c with
  | .error _ => VisClick.mk false false
  | .ok n =>
    if n > 0 then
      match v with
      | .error _ => VisClick.mk false false
      | .ok vis =>
        if vis then
          match en with
          | .error _ => VisClick.mk false false
          | .ok cl => VisClick.mk vis cl
        else VisClick.mk vis false
    else VisClick.mk false false

/-- MainPage.verify_header_container_exists: returns
self.header_container.is_visible() with no exception guard, so an engine
error propagates to the caller. -/
def verify_header_container_exists (env : Env) : Except Err Bool :=
  env.visible "div.tm-header__container" 0

/-- One iteration of the loop in MainPageSteps.verify_header_elements:
is_visible() is called with no guard, so an error aborts the loop. -/
def hdrStep (env : Env) (n : String) : Except Err (String × Bool) :=
  match env.visible ("hdr:" ++ n) 0 with
  | .error e => Except.error e
  | .ok v => Except.ok (n, v)

/-- MainPageSteps.verify_header_elements (src/steps/main_page_steps.py):
builds the name-to-visibility dictionary; the is_visible call of each
iteration is unguarded. -/
def verify_header_elements (env : Env) : Except Err (List (String × Bool)) :=
  mapME (hdrStep env) headerElementNames

/-- The guarded body of one iteration of verify_all_content_tabs:
try: count; if count > 0: visible = first.is_visible(timeout=5000) else False;
except Exception: False. -/
def tabCheck (env : Env) (n : String) : Bool :=
  match env.count ("tab:" ++ n) with
  | .error _ => false
  | .ok c =>
    if c > 0 then
      match env.visible ("tab:" ++ n) 5000 with
      | .error _ => false
      | .ok b => b
    else false

/-- One iteration of MainPageSteps.verify_all_content_tabs: after the guarded
check, when the tab is not visible the diagnostic attachment re-invokes
tab_locator.count() in its message outside the try/except, so an error from
that second count call propagates. -/
def tabStep (env : Env) (n : String) : Except Err (String × Bool) :=
  let v := tabCheck env n
  if v then Except.ok (n, v)
  else
    match env.count ("tab:" ++ n) with
    | .error e => Except.error e
    | .ok _ => Except.ok (n, v)

/-- MainPageSteps.verify_all_content_tabs (src/steps/main_page_steps.py). -/
def verify_all_content_tabs (env : Env) : Except Err (List (String × Bool)) :=
  mapME (tabStep env) contentTabNames

/-- One entry of MainPageSteps.verify_menu_options: every engine call of the
loop body sits inside the try/except and the diagnostic attachment reads only
the local count variable, so an iteration cannot raise. -/
def menuItem (env : Env) (n : String) : String × VisClick :=
  (n, visClickCheck (env.count ("menu:" ++ n))
        (env.visible ("menu:" ++ n) 5000) (env.enabled ("menu:" ++ n)))

/-- MainPageSteps.verify_menu_options (src/steps/main_page_steps.py). -/
def verify_menu_options (env : Env) : Except Err (List (String × VisClick)) :=
  mapME (fun n => Except.ok (menuItem env n)) menuOptionNames

/-- One entry of the service-links loop of verify_services_section. -/
def svcItem (env : Env) (n : String) : String × VisClick :=
  (n, visClickCheck (env.count ("svc:" ++ n))
        (env.visible ("svc:" ++ n) 5000) (env.enabled ("svc:" ++ n)))

/-- Result record of MainPageSteps.verify_services_section. -/
structure ServicesRes where
  sectionHeader : Bool
  serviceLinks : List (String × VisClick)
deriving DecidableEq, Repr

/-- MainPageSteps.verify_services_section: guarded header visibility check,
guarded per-link loop, then an unguarded screenshot of the header when the
header was visible. -/
def verify_services_section (env : Env) : Except Err ServicesRes :=
  let hv : Bool :=
    match env.visible "services-header" 5000 with
    | .ok b => b
    | .error _ => false
  match mapME (fun n => Except.ok (svcItem env n)) serviceLinkNames with
  | .error e => Except.error e
  | .ok links =>
    if hv then
      match env.screenshot "services-header" with
      | .error e => Except.error e
      | .ok _ => Except.ok (ServicesRes.mk hv links)
    else Except.ok (ServicesRes.mk hv links)

/-- One entry of the loop of verify_footer_options for a given section. -/
def ftrItem (env : Env) (sec n : String) : String × VisClick :=
  (n, visClickCheck (env.count ("ftr:" ++ sec ++ ":" ++ n))
        (env.visible ("ftr:" ++ sec ++ ":" ++ n) 5000)
        (env.enabled ("ftr:" ++ sec ++ ":" ++ n)))

/-- MainPageSteps.verify_footer_options (src/steps/main_page_steps.py). -/
def verify_footer_options (env : Env) (sec : String) :
    Except Err (List (String × VisClick)) :=
  mapME (fun n => Except.ok (ftrItem env sec n)) (footerSectionOptions sec)

/-- One entry of the loop of MainPageSteps.verify_social_icons. -/
def socItem (env : Env) (n : String) : String × VisClick :=
  (n, visClickCheck (env.count ("soc:" ++ n))
        (env.visible ("soc:" ++ n) 5000) (env.enabled ("soc:" ++ n)))

/-- MainPageSteps.verify_social_icons (src/steps/main_page_steps.py). -/
def verify_social_icons (env : Env) : Except Err (List (String × VisClick)) :=
  mapME (fun n => Except.ok (socItem env n)) socialIconNames

/-- Result record of LoginPageSteps.verify_login_button. -/
structure LoginBtnRes where
  btnExists : Bool
  visible : Bool
  clickable : Bool
deriving DecidableEq, Repr

/-- The guarded part of LoginPageSteps.verify_login_button:
try: count; if count > 0: visible = is_visible(5000);
clickable = is_enabled() if visible else False; else all False;
except Exception: all False. -/
def login_button_check (env : Env) : LoginBtnRes :=
  match env.count "login-button" with
  | .error _ => LoginBtnRes.mk false false false
  | .ok c =>
    if c > 0 then
      match env.visible "login-button" 5000 with
      | .error _ => LoginBtnRes.mk false false false
      | .ok v =>
        if v then
          match env.enabled "login-button" with
          | .error _ => LoginBtnRes.mk false false false
          | .ok cl => LoginBtnRes.mk true v cl
        else LoginBtnRes.mk true v false
    else LoginBtnRes.mk false false false

/-- LoginPageSteps.verify_login_button (src/steps/login_page_steps.py):
the guarded check above; when the button is visible, an unguarded
screenshot of the button follows. -/
def verify_login_button (env : Env) : Except Err LoginBtnRes :=
  let r := login_button_check env
  if r.visible then
    match env.screenshot "login-button" with
    | .error e => Except.error e
    | .ok _ => Except.ok r
  else Except.ok r

/-- MainPageSteps.verify_footer_section (src/steps/main_page_steps.py):
scroll to the page bottom via an unguarded evaluate, then an unguarded
wait_for on footer_section (.tm-footer-menu) with timeout 5000, then the
bare is_visible of MainPage.verify_footer_section_exists, then an
unguarded screenshot when visible.  Every engine error propagates. -/
def verify_footer_section (env : Env) : Except Err Bool :=
  match env.evaluate "window.scrollTo(0, document.body.scrollHeight)" with
  | .error e => Except.error e
  | .ok _ =>
    match env.waitFor ".tm-footer-menu" 5000 with
    | .error e => Except.error e
    | .ok _ =>
      match env.visible ".tm-footer-menu" 0 with
      | .error e => Except.error e
      | .ok v =>
        if v then
          match env.screenshot ".tm-footer-menu" with
          | .error e => Except.error e
          | .ok _ => Except.ok v
        else Except.ok v

/-- MainPageSteps.scroll_to_footer (src/steps/main_page_steps.py):
scroll to the page bottom via an unguarded evaluate, then an unguarded
wait_for on footer_section_main (div.tm-footer) with timeout 5000, then an
unguarded page screenshot.  Every engine error propagates. -/
def scroll_to_footer (env : Env) : Except Err Unit :=
  match env.evaluate "window.scrollTo(0, document.body.scrollHeight)" with
  | .error e => Except.error e
  | .ok _ =>
    match env.waitFor "div.tm-footer" 5000 with
    | .error e => Except.error e
    | .ok _ =>
      match env.screenshot "page" with
      | .error e => Except.error e
      | .ok _ => Except.ok ()

/-- is_visible modelled as a read-only query on the session state: the
engine contract for is_visible is a pure observation, so the state comes
back unchanged.  Used by the state-passing variant below. -/
def is_visible_query (s : Env) (k : String) (t : Nat) :
    Except Err Bool × Env :=
  (s.visible k t, s)

/-- MainPage.verify_menu_panel_displayed (src/pages/main_page.py), state
passing form: try: return menu_panel.is_visible(timeout=5000);
except Exception: return False. -/
def verify_menu_panel_displayedS (s : Env) : Bool × Env :=
  match is_visible_query s ".navigation-wrapper" 5000 with
  | (Except.ok b, s2) => (b, s2)
  | (Except.error _, s2) => (false, s2)

/-- MainPage.verify_menu_panel_displayed, value part. -/
def mp_verify_menu_panel_displayed (env : Env) : Bool :=
  (verify_menu_panel_displayedS env).1

/-- MainPage.verify_menu_panel_hidden (src/pages/main_page.py):
try: return not menu_panel.is_visible(timeout=2000);
except Exception: return True. -/
def mp_verify_menu_panel_hidden (env : Env) : Bool :=
  match env.visible ".navigation-wrapper" 2000 with
  | .ok b => !b
  | .error _ => true

/-- MainPageSteps.verify_menu_panel_hidden (src/steps/main_page_steps.py).
The later direct re-check and the button checks are distinct call sites,
keyed separately because the page animates between calls. -/
def steps_verify_menu_panel_hidden (env : Env) : Bool :=
  let isHidden := mp_verify_menu_panel_hidden env
  if isHidden then true
  else
    match env.waitFor "hidden:.navigation-wrapper" 3000 with
    | .ok _ => true
    | .error _ =>
      match env.visible "steps:.navigation-wrapper" 2000 with
      | .ok b => !b
      | .error _ =>
        match env.visible "menu-button" 2000 with
        | .error _ => true
        | .ok bv =>
          match env.enabled "menu-button" with
          | .error _ => true
          | .ok be => bv && be

/-- Wait attempts made by MainPage.navigate, in order. -/
inductive NavStep
  | goto1 | header1 | load1 | idle1 | goto2 | header2 | load2 | idle2
deriving DecidableEq, Repr

/-- The load-state block of MainPage.navigate: try wait_for_load_state with
the load condition and timeout 30000; on exception try the networkidle
condition with timeout 15000; on exception continue regardless.  The block
never raises; the returned list records the attempted waits with their
timeouts. -/
def load_wait_block (env : Env) (loadKey idleKey : String)
    (sLoad sIdle : NavStep) : List (NavStep × Nat) :=
  match env.loadState loadKey 30000 with
  | .ok _ => [(sLoad, 30000)]
  | .error _ =>
    match env.loadState idleKey 15000 with
    | _ => [(sLoad, 30000), (sIdle, 15000)]

/-- MainPage.navigate (src/pages/main_page.py): goto, then an unguarded
wait_for_selector on div.tm-header__container with timeout 30000, then the
guarded load-state block; when the current url contains the feed path the
same sequence repeats for the articles url (second call sites keyed p2:).
Returns the outcome together with the trace of attempted steps and their
timeouts (0 for goto, which takes no explicit timeout here). -/
def navigate (env : Env) : Except Err Unit × List (NavStep × Nat) :=
  match env.gotoRes "https://habr.com" with
  | .error e => (Except.error e, [(NavStep.goto1, 0)])
  | .ok _ =>
    match env.waitFor "div.tm-header__container" 30000 with
    | .error e => (Except.error e, [(NavStep.goto1, 0), (NavStep.header1, 30000)])
    | .ok _ =>
      let tr1 := [(NavStep.goto1, 0), (NavStep.header1, 30000)] ++
        load_wait_block env "load" "networkidle" NavStep.load1 NavStep.idle1
      if env.urlHasFeed then
        match env.gotoRes "https://habr.com/ru/articles/" with
        | .error e => (Except.error e, tr1 ++ [(NavStep.goto2, 0)])
        | .ok _ =>
          match env.waitFor "p2:div.tm-header__container" 30000 with
          | .error e =>
              (Except.error e, tr1 ++ [(NavStep.goto2, 0), (NavStep.header2, 30000)])
          | .ok _ =>
              (Except.ok (), tr1 ++ [(NavStep.goto2, 0), (NavStep.header2, 30000)] ++
                load_wait_block env "p2:load" "p2:networkidle" NavStep.load2 NavStep.idle2)
      else (Except.ok (), tr1)

/-- Wait attempts made by MainPageSteps.open_menu, in order. -/
inductive OMStep
  | panelWait | whatsNewWait | backendWait | servicesWait
deriving DecidableEq, Repr

/-- MainPageSteps.open_menu (src/steps/main_page_steps.py): click the menu
button, then nested try/except waits: menu panel (5000), on exception the
option named Что нового (5000), on exception the option named Бэкенд (5000),
on exception the unguarded services section header wait (5000); finally an
unguarded page screenshot.  Returns the outcome and the trace of attempted
waits with their timeouts. -/
def open_menu (env : Env) : Except Err Unit × List (OMStep × Nat) :=
  match env.click "menu-button" with
  | .error e => (Except.error e, [])
  | .ok _ =>
    let waited : Except Err Unit × List (OMStep × Nat) :=
      match env.waitFor ".navigation-wrapper" 5000 with
      | .ok _ => (Except.ok (), [(OMStep.panelWait, 5000)])
      | .error _ =>
        match env.waitFor "menu:Что нового" 5000 with
        | .ok _ => (Except.ok (), [(OMStep.panelWait, 5000), (OMStep.whatsNewWait, 5000)])
        | .error _ =>
          match env.waitFor "menu:Бэкенд" 5000 with
          | .ok _ => (Except.ok (),
              [(OMStep.panelWait, 5000), (OMStep.whatsNewWait, 5000),
               (OMStep.backendWait, 5000)])
          | .error _ =>
            match env.waitFor "services-header" 5000 with
            | .ok _ => (Except.ok (),
                [(OMStep.panelWait, 5000), (OMStep.whatsNewWait, 5000),
                 (OMStep.backendWait, 5000), (OMStep.servicesWait, 5000)])
            | .error e => (Except.error e,
                [(OMStep.panelWait, 5000), (OMStep.whatsNewWait, 5000),
                 (OMStep.backendWait, 5000), (OMStep.servicesWait, 5000)])
    match waited.1 with
    | .error e => (Except.error e, waited.2)
    | .ok _ =>
      match env.screenshot "page" with
      | .error e => (Except.error e, waited.2)
      | .ok _ => (Except.ok (), waited.2)

/-- Wait attempts made by LoginPageSteps.click_login_button, in order. -/
inductive CLStep
  | modalWait | emailWait | passwordWait
deriving DecidableEq, Repr

/-- LoginPageSteps.click_login_button (src/steps/login_page_steps.py):
click the login button, then nested try/except waits for the modal (10000),
the email input (10000) and the password input (10000); the innermost
except passes, so no wait outcome escapes; finally an unguarded page
screenshot. -/
def click_login_button (env : Env) : Except Err Unit × List (CLStep × Nat) :=
  match env.click "login-button" with
  | .error e => (Except.error e, [])
  | .ok _ =>
    let waited : List (CLStep × Nat) :=
      match env.waitFor "login-modal" 10000 with
      | .ok _ => [(CLStep.modalWait, 10000)]
      | .error _ =>
        match env.waitFor "email-input" 10000 with
        | .ok _ => [(CLStep.modalWait, 10000), (CLStep.emailWait, 10000)]
        | .error _ =>
          [(CLStep.modalWait, 10000), (CLStep.emailWait, 10000),
           (CLStep.passwordWait, 10000)]
    match env.screenshot "page" with
    | .error e => (Except.error e, waited)
    | .ok _ => (Except.ok (), waited)

/-- Checkbox selectors tried via the frame_locator path of
LoginPage.get_captcha_checkbox, in declaration order. -/
def captchaSelectorsA : List String :=
  ["div.CheckboxCaptcha-Checkbox", "div[class*=\"CheckboxCaptcha\"]",
   "div[class*=\"checkbox\"]", "span[role=\"checkbox\"]",
   "#checkbox-captcha", ".checkbox-captcha"]

/-- Checkbox selectors tried via the content_frame fallback path of
LoginPage.get_captcha_checkbox, in declaration order. -/
def captchaSelectorsB : List String :=
  ["div.CheckboxCaptcha-Checkbox", "div[class*=\"CheckboxCaptcha\"]",
   "div[class*=\"checkbox\"]", "span[role=\"checkbox\"]"]

/-- Identity of a resolved captcha checkbox locator: which access path and
which selector produced it. -/
inductive CaptchaLoc
  | direct (sel : String)
  | viaFrame (sel : String)
deriving DecidableEq, Repr

/-- The selector loop of LoginPage.get_captcha_checkbox:
for selector in selectors: try: if locator(selector).first.count() > 0:
return locator; except Exception: continue.  A strategy whose count raises
is skipped; the first strategy whose count is positive wins. -/
def selectorLoop (q : String → Except Err Nat) (mk : String → CaptchaLoc) :
    List String → Option CaptchaLoc
  | [] => none
  | s :: rest =>
    match q s with
    | .error _ => selectorLoop q mk rest
    | .ok n => if n > 0 then some (mk s) else selectorLoop q mk rest

/-- Outcome of the first (frame_locator) block of get_captcha_checkbox. -/
inductive Phase1Out
  | earlyNone
  | found (l : CaptchaLoc)
  | fallThrough
deriving DecidableEq, Repr

/-- First block of LoginPage.get_captcha_checkbox: if the captcha container
is not visible (timeout 5000) return None immediately; otherwise run the
selector loop against the frame_locator; returning a locator on a positive
count, falling through to the second block when no selector matched.  An
exception anywhere in the block is caught by the enclosing except and also
falls through to the second block. -/
def phase1 (env : Env) : Except Err Phase1Out :=
  match env.visible "captcha-container" 5000 with
  | .error e => Except.error e
  | .ok vis =>
    if vis then
      match selectorLoop (fun s => env.count ("fl:" ++ s))
          CaptchaLoc.direct captchaSelectorsA with
      | some l => Except.ok (Phase1Out.found l)
      | none => Except.ok Phase1Out.fallThrough
    else Except.ok Phase1Out.earlyNone

/-- Second block of LoginPage.get_captcha_checkbox: if the iframe locator
count is positive, wait for the iframe (5000), request its content
document, and when one is returned wait for it to load (10000) and run the
selector loop inside it; any exception is caught by the enclosing except. -/
def phase2 (env : Env) : Except Err (Option CaptchaLoc) :=
  match env.count "captcha-iframe" with
  | .error e => Except.error e
  | .ok n =>
    if n > 0 then
      match env.waitFor "captcha-iframe" 5000 with
      | .error e => Except.error e
      | .ok _ =>
        match env.contentFrame with
        | .error e => Except.error e
        | .ok fr =>
          if fr then
            match env.frameLoad with
            | .error e => Except.error e
            | .ok _ =>
              Except.ok (selectorLoop (fun s => env.count ("cf:" ++ s))
                CaptchaLoc.viaFrame captchaSelectorsB)
          else Except.ok none
    else Except.ok none

/-- LoginPage.get_captcha_checkbox (src/pages/login_page.py): the first
block inside try/except, with its early return of None and its returned
locator final; on fall-through or exception the second block runs inside
its own try/except; any failure there yields None. -/
def get_captcha_checkbox (env : Env) : Option CaptchaLoc :=
  let fb : Option CaptchaLoc :=
    match phase2 env with
    | .ok r => r
    | .error _ => none
  match phase1 env with
  | .ok Phase1Out.earlyNone => none
  | .ok (Phase1Out.found l) => some l
  | .ok Phase1Out.fallThrough => fb
  | .error _ => fb

/-- Visibility query on a resolved captcha locator, keyed by its path. -/
def captchaLocKey : CaptchaLoc → String
  | CaptchaLoc.direct s => "fl:" ++ s
  | CaptchaLoc.viaFrame s => "cf:" ++ s

/-- LoginPage.verify_captcha_checkbox_exists (src/pages/login_page.py):
try: checkbox = get_captcha_checkbox(); if checkbox:
return checkbox.is_visible(timeout=15000); return False;
except Exception: return False. -/
def verify_captcha_checkbox_exists (env : Env) : Bool :=
  match get_captcha_checkbox env with
  | none => false
  | some l =>
    match env.visible (captchaLocKey l) 15000 with
    | .ok b => b
    | .error _ => false

/-- Playwright union semantics of a chained pair of strategies with .first:
A.or_(B).first resolves to the earliest element in document order matching
either strategy.  The document is the list of element identifiers in
document order; a strategy is its matching predicate. -/
def orFirst (d : List Nat) (s1 s2 : Nat → Bool) : Option Nat :=
  (d.filter (fun e => s1 e || s2 e)).head?

/-- MainPage.menu_whats_new (src/pages/main_page.py):
get_by_role link with the accessible name, chained by .or_ with
get_by_text on the same text, then .first. -/
def menu_whats_new (d : List Nat) (roleStrategy textStrategy : Nat → Bool) :
    Option Nat :=
  orFirst d roleStrategy textStrategy

/-- Modelled from the claim wording for comparison: evaluate strategies
strictly in declaration order and stop at the first strategy whose match
count is at least one, resolving to that strategy own first match. -/
def specFirstStrategyWins (d : List Nat) : List (Nat → Bool) → Option Nat
  | [] => none
  | s :: rest =>
    if (d.filter s).isEmpty then specFirstStrategyWins d rest
    else (d.filter s).head?

/-- All-ok oracle used to build concrete environments. -/
def baseEnv : Env where
  count := fun _ => Except.ok 1
  visible := fun _ _ => Except.ok true
  enabled := fun _ => Except.ok true
  waitFor := fun _ _ => Except.ok ()
  gotoRes := fun _ => Except.ok ()
  loadState := fun _ _ => Except.ok ()
  urlHasFeed := false
  contentFrame := Except.ok true
  frameLoad := Except.ok ()
  click := fun _ => Except.ok ()
  screenshot := fun _ => Except.ok ()
  evaluate := fun _ => Except.ok ()

/-- Environment where every visibility query raises a timeout. -/
def envVisErr : Env :=
  { baseEnv with visible := fun _ _ => Except.error Err.timeout }

/-- Environment where the count query for the first content tab raises. -/
def envTabCountErr : Env :=
  { baseEnv with count := fun k =>
      if k = "tab:" ++ "Статьи" then Except.error Err.timeout else Except.ok 1 }

/-- Environment where every wait_for and load-state wait times out. -/
def envAllWaitsFail : Env :=
  { baseEnv with
      waitFor := fun _ _ => Except.error Err.timeout,
      loadState := fun _ _ => Except.error Err.timeout }

/-- Environment where only the load-state waits time out. -/
def envLoadFail : Env :=
  { baseEnv with loadState := fun _ _ => Except.error Err.timeout }

/-- Environment simulating a cross-origin-restricted captcha frame: the
outer page resolves, but every query addressed to the frame content raises
and the content document is unreachable. -/
def envXOrigin : Env :=
  { baseEnv with
      count := fun k =>
        if k = "captcha-iframe" then Except.ok 1
        else Except.error Err.crossOrigin,
      contentFrame := Except.error Err.crossOrigin }

/-- Environment for the hidden-check fallback cascade: the panel is
observed visible by the page-level check, and every later check raises. -/
def envHiddenFail : Env :=
  { baseEnv with
      visible := fun k _ =>
        if k = ".navigation-wrapper" then Except.ok true
        else Except.error Err.timeout,
      waitFor := fun _ _ => Except.error Err.timeout,
      enabled := fun _ => Except.error Err.timeout }

/-- A loop whose body cannot raise maps to the list of its values. -/
theorem mapME_pure {α β : Type} (g : α → β) (l : List α) :
    mapME (fun a => Except.ok (g a)) l = Except.ok (l.map g) := by
  induction l with
  | nil => rfl
  | cons a t ih => simp [mapME, ih]

/-- The guarded per-element check never reports clickable without visible. -/
theorem visClickCheck_clickable_imp_visible (c : Except Err Nat)
    (v : Except Err Bool) (en : Except Err Bool) :
    (visClickCheck c v en).clickable = true →
    (visClickCheck c v en).visible = true := by
  unfold visClickCheck
  rcases c with e | n
  · simp
  · by_cases hn : n > 0
    · simp only [hn, if_true]
      rcases v with e | vis
      · simp
      · cases vis with
        | false => simp
        | true =>
          rcases en with e | cl
          · simp
          · simp
    · simp [hn]

/-- A loop whose iterations each return their own key paired with a value
returns the full key list, in order. -/
theorem mapME_keys {β : Type} (f : String → Except Err (String × β)) :
    ∀ l : List String, (∀ n ∈ l, ∃ b, f n = Except.ok (n, b)) →
      ∃ r, mapME f l = Except.ok r ∧ r.map Prod.fst = l := by
  intro l
  induction l with
  | nil => exact fun _ => ⟨[], rfl, rfl⟩
  | cons a t ih =>
    intro h
    obtain ⟨b, hb⟩ := h a (List.mem_cons_self a t)
    obtain ⟨r, hr, hk⟩ := ih (fun n hn => h n (List.mem_cons_of_mem a hn))
    exact ⟨(a, b) :: r, by simp [mapME, hb, hr], by simp [hk]⟩

/-- When the count query for a tab succeeds, the iteration of
verify_all_content_tabs cannot raise. -/
theorem tabStep_ok_of_count_ok (env : Env) (n : String) (k : Nat)
    (h : env.count ("tab:" ++ n) = Except.ok k) :
    tabStep env n = Except.ok (n, tabCheck env n) := by
  unfold tabStep
  cases hv : tabCheck env n with
  | true => simp [hv]
  | false => simp [hv, h]

/-- The selector loop yields nothing when every count query raises. -/
theorem selectorLoop_none_of_errors (q : String → Except Err Nat)
    (mk : String → CaptchaLoc) :
    ∀ sels : List String, (∀ s ∈ sels, ∃ e, q s = Except.error e) →
      selectorLoop q mk sels = none := by
  intro sels
  induction sels with
  | nil => exact fun _ => rfl
  | cons a t ih =>
    intro h
    obtain ⟨e, he⟩ := h a (List.mem_cons_self a t)
    simp [selectorLoop, he, ih (fun s hs => h s (List.mem_cons_of_mem a hs))]

/-- When the content document is unreachable, the guarded second block of
get_captcha_checkbox contributes nothing. -/
theorem phase2_caught_none (env : Env) (e : Err)
    (h : env.contentFrame = Except.error e) :
    (match phase2 env with
     | .ok r => r
     | .error _ => none) = none := by
  unfold phase2
  rcases hc : env.count "captcha-iframe" with e2 | n
  · simp
  · by_cases hn : n > 0
    · simp only [hn, if_true]
      rcases hw : env.waitFor "captcha-iframe" 5000 with e3 | u
      · simp
      · simp [h]
    · simp [hn]

/-- The value of verify_services_section determines its service-link list. -/
theorem verify_services_section_links (env : Env) (r : ServicesRes)
    (h : verify_services_section env = Except.ok r) :
    r.serviceLinks = serviceLinkNames.map (svcItem env) := by
  unfold verify_services_section at h
  rw [mapME_pure] at h
  by_cases hv : (match env.visible "services-header" 5000 with
      | .ok b => b
      | .error _ => false) = true
  · simp only [hv, if_true] at h
    rcases hs : env.screenshot "services-header" with e | u
    · rw [hs] at h; cases h
    · rw [hs] at h
      cases h
      rfl
  · simp only [eq_false_of_ne_true hv] at h
    rw [if_neg (by simp)] at h
    cases h
    rfl

/-- Every element of the result of a loop with pure iterations is a value
of the iteration function. -/
theorem mapME_ok_mem {α β : Type} (g : α → β) (l : List α) (r : List β)
    (h : mapME (fun a => Except.ok (g a)) l = Except.ok r) :
    ∀ b ∈ r, ∃ a, b = g a := by
  rw [mapME_pure] at h
  injection h with h
  subst h
  intro b hb
  obtain ⟨a, _, rfl⟩ := List.mem_map.mp hb
  exact ⟨a, rfl⟩

/-- A successful verify_login_button returns the guarded check value. -/
theorem verify_login_button_ok (env : Env) (r : LoginBtnRes)
    (h : verify_login_button env = Except.ok r) :
    r = login_button_check env := by
  unfold verify_login_button at h
  by_cases hv : (login_button_check env).visible = true
  · simp only [hv, if_true] at h
    rcases hs : env.screenshot "login-button" with e | u
    · rw [hs] at h; cases h
    · rw [hs] at h; injection h with h; exact h.symm
  · simp only [eq_false_of_ne_true hv] at h
    rw [if_neg (by simp)] at h
    injection h with h
    exact h.symm

/-- The guarded login-button check never reports clickable without visible
and never reports visible without existing. -/
theorem login_button_check_invariant (env : Env) :
    ((login_button_check env).clickable = true →
      (login_button_check env).visible = true) ∧
    ((login_button_check env).visible = true →
      (login_button_check env).btnExists = true) := by
  unfold login_button_check
  rcases env.count "login-button" with e | c
  · simp
  · by_cases hc : c > 0
    · simp only [hc, if_true]
      rcases env.visible "login-button" 5000 with e | v
      · simp
      · cases v with
        | false => simp
        | true =>
          rcases env.enabled "login-button" with e | cl
          · simp
          · simp
    · simp [hc]

/-- Claim C1, counterexample: the claim states that every verify operation
catches every internal exception and never lets a locate/wait failure
propagate; but MainPage.verify_header_container_exists and the loop of
MainPageSteps.verify_header_elements call is_visible with no guard, so in
the environment whose visibility queries raise a timeout both cited
operations propagate the error to the calling test. -/
theorem C1_counterexample :
    verify_header_container_exists envVisErr = Except.error Err.timeout ∧
    verify_header_elements envVisErr = Except.error Err.timeout :=
  ⟨rfl, rfl⟩

/-- Claim C1, amended: verify operations whose engine calls sit inside
try/except (verify_menu_options and the panel-displayed check, like the
login-page verify methods) convert every internal exception into false
fields and never raise; but verify_header_container_exists and
verify_header_elements invoke the visibility check unguarded, so an
exception there propagates to the calling test. -/
theorem C1_amended :
    (∀ env : Env, ∃ r, verify_menu_options env = Except.ok r) ∧
    (∀ (env : Env) (e : Err),
        env.visible "div.tm-header__container" 0 = Except.error e →
        verify_header_container_exists env = Except.error e) ∧
    (∀ (env : Env) (e : Err),
        env.visible "hdr:Все потоки" 0 = Except.error e →
        verify_header_elements env = Except.error e) ∧
    (∀ (env : Env) (e : Err),
        env.visible ".navigation-wrapper" 5000 = Except.error e →
        mp_verify_menu_panel_displayed env = false) := by
  refine ⟨?_, ?_, ?_, ?_⟩
  · intro env
    exact ⟨menuOptionNames.map (menuItem env), mapME_pure _ _⟩
  · intro env e h
    simpa [verify_header_container_exists] using h
  · intro env e h
    simp [verify_header_elements, headerElementNames, mapME, hdrStep, h]
  · intro env e h
    simp [mp_verify_menu_panel_displayed, verify_menu_panel_displayedS,
      is_visible_query, h]

/-- Claim C1, witness for the amended theorem at concrete environments. -/
theorem C1_amended_witness :
    (∃ r, verify_menu_options baseEnv = Except.ok r) ∧
    verify_header_container_exists envVisErr = Except.error Err.timeout ∧
    verify_header_elements envVisErr = Except.error Err.timeout ∧
    mp_verify_menu_panel_displayed envVisErr = false :=
  ⟨C1_amended.1 baseEnv,
   C1_amended.2.1 envVisErr Err.timeout rfl,
   C1_amended.2.2.1 envVisErr Err.timeout rfl,
   C1_amended.2.2.2 envVisErr Err.timeout rfl⟩

/-- Claim C2, counterexample: the claim states that a composite check never
raises; but in verify_all_content_tabs the diagnostic message for a
non-visible tab re-invokes the locator count outside the try/except, so in
the environment where the count query for the first tab raises, the
operation propagates the error and the remaining five tabs are never
evaluated. -/
theorem C2_counterexample :
    verify_all_content_tabs envTabCountErr = Except.error Err.timeout := rfl

/-- Claim C2, amended: verify_menu_options evaluates all ten menu options
independently, returns one entry per name in order, and never raises;
verify_all_content_tabs does the same whenever the count queries of the
tabs do not raise, but an exception from the count re-query in its
diagnostic path propagates. -/
theorem C2_amended :
    (∀ env : Env, ∃ r, verify_menu_options env = Except.ok r ∧
        r.map Prod.fst = menuOptionNames) ∧
    (∀ env : Env,
        (∀ n ∈ contentTabNames, ∃ k, env.count ("tab:" ++ n) = Except.ok k) →
        ∃ r, verify_all_content_tabs env = Except.ok r ∧
          r.map Prod.fst = contentTabNames) := by
  constructor
  · intro env
    refine ⟨menuOptionNames.map (menuItem env), mapME_pure _ _, ?_⟩
    have hfst : Prod.fst ∘ menuItem env = fun n => n := rfl
    simp [hfst]
  · intro env h
    apply mapME_keys
    intro n hn
    obtain ⟨k, hk⟩ := h n hn
    exact ⟨tabCheck env n, tabStep_ok_of_count_ok env n k hk⟩

/-- Claim C2, witness for the amended theorem at the all-ok environment. -/
theorem C2_amended_witness :
    (∃ r, verify_menu_options baseEnv = Except.ok r ∧
        r.map Prod.fst = menuOptionNames) ∧
    (∃ r, verify_all_content_tabs baseEnv = Except.ok r ∧
        r.map Prod.fst = contentTabNames) :=
  ⟨C2_amended.1 baseEnv, C2_amended.2 baseEnv (fun _ _ => ⟨1, rfl⟩)⟩

/-- Document with the element matched only by the second strategy standing
earlier in document order than the element matched only by the first. -/
def cexDom : List Nat := [2, 1]

/-- First (role) strategy of the counterexample: matches element 1 only. -/
def cexRole : Nat → Bool := fun e => e == 1

/-- Second (text) strategy of the counterexample: matches element 2 only. -/
def cexText : Nat → Bool := fun e => e == 2

/-- Claim C3, counterexample: the claim states that evaluation stops at the
first strategy with at least one match and resolves to that strategy own
match; but the chained .or_ of menu_whats_new takes the union of the two
match sets in document order, so although the first strategy matches
element 1, the resolved element is 2, the match of the second strategy —
unlike the declaration-order semantics the claim describes. -/
theorem C3_counterexample :
    cexDom.filter cexRole = [1] ∧
    menu_whats_new cexDom cexRole cexText = some 2 ∧
    specFirstStrategyWins cexDom [cexRole, cexText] = some 1 :=
  ⟨rfl, rfl, rfl⟩

/-- Claim C3, amended: for strategy lists iterated explicitly in code (the
captcha selector loops), strategies are evaluated strictly in declaration
order, a strategy whose count raises is skipped, and the first strategy
with a positive match count wins; but for .or_-chained queries the engine
unions the strategies match sets and .first resolves to the earliest
element in document order, which may be the match of a later strategy. -/
theorem C3_amended :
    (∀ (cnt : String → Nat) (mk : String → CaptchaLoc) (sels : List String),
        selectorLoop (fun s => Except.ok (cnt s)) mk sels =
          Option.map mk (sels.find? (fun s => decide (0 < cnt s)))) ∧
    (∀ (q : String → Except Err Nat) (mk : String → CaptchaLoc) (s : String)
        (rest : List String) (e : Err), q s = Except.error e →
        selectorLoop q mk (s :: rest) = selectorLoop q mk rest) ∧
    (∀ (d : List Nat) (s1 s2 : Nat → Bool),
        menu_whats_new d s1 s2 = (d.filter (fun e => s1 e || s2 e)).head?) := by
  refine ⟨?_, ?_, ?_⟩
  · intro cnt mk sels
    induction sels with
    | nil => rfl
    | cons a t ih =>
      by_cases h : 0 < cnt a
      · rw [List.find?_cons_of_pos _ (by simpa using h)]
        simp [selectorLoop, h]
      · rw [List.find?_cons_of_neg _ (by simpa using h)]
        simp [selectorLoop, h, ih]
  · intro q mk s rest e h
    simp [selectorLoop, h]
  · intro d s1 s2
    rfl

/-- Claim C3, witness for the amended theorem: a strategy whose count query
raises is skipped by the selector loop. -/
theorem C3_amended_witness :
    selectorLoop (fun _ => Except.error Err.timeout) CaptchaLoc.direct
        (".checkbox-captcha" :: []) =
      selectorLoop (fun _ => Except.error Err.timeout) CaptchaLoc.direct [] :=
  C3_amended.2.1 (fun _ => Except.error Err.timeout) CaptchaLoc.direct
    ".checkbox-captcha" [] Err.timeout rfl

/-- Claim C4: in a wait with primary condition and ordered fallbacks, when
the primary times out and the first fallback succeeds, the operation
completes successfully and the later fallbacks are never attempted; shown
for MainPageSteps.open_menu (panel wait primary; option waits and services
header wait as ordered fallbacks) and for the load-state block of
MainPage.navigate (load primary, networkidle fallback). -/
theorem C4_fallback_order :
    (∀ (env : Env) (e : Err),
        env.click "menu-button" = Except.ok () →
        env.waitFor ".navigation-wrapper" 5000 = Except.error e →
        env.waitFor "menu:Что нового" 5000 = Except.ok () →
        env.screenshot "page" = Except.ok () →
        (open_menu env).1 = Except.ok () ∧
        (open_menu env).2 = [(OMStep.panelWait, 5000), (OMStep.whatsNewWait, 5000)] ∧
        ∀ t : Nat, ¬ ((OMStep.backendWait, t) ∈ (open_menu env).2 ∨
            (OMStep.servicesWait, t) ∈ (open_menu env).2)) ∧
    (∀ (env : Env) (e : Err),
        env.gotoRes "https://habr.com" = Except.ok () →
        env.waitFor "div.tm-header__container" 30000 = Except.ok () →
        env.loadState "load" 30000 = Except.error e →
        env.loadState "networkidle" 15000 = Except.ok () →
        env.urlHasFeed = false →
        (navigate env).1 = Except.ok () ∧
        (navigate env).2 = [(NavStep.goto1, 0), (NavStep.header1, 30000),
            (NavStep.load1, 30000), (NavStep.idle1, 15000)]) := by
  constructor
  · intro env e h1 h2 h3 h4
    have ho : open_menu env =
        (Except.ok (), [(OMStep.panelWait, 5000), (OMStep.whatsNewWait, 5000)]) := by
      simp [open_menu, h1, h2, h3, h4]
    refine ⟨by rw [ho], by rw [ho], ?_⟩
    intro t
    rw [ho]
    simp
  · intro env e h1 h2 h3 h4 h5
    have hn : navigate env =
        (Except.ok (), [(NavStep.goto1, 0), (NavStep.header1, 30000),
          (NavStep.load1, 30000), (NavStep.idle1, 15000)]) := by
      simp [navigate, load_wait_block, h1, h2, h3, h4, h5]
    exact ⟨by rw [hn], by rw [hn]⟩

/-- Environment for the C4 witness: the primary waits time out and the
first fallbacks succeed. -/
def envC4 : Env :=
  { baseEnv with
      waitFor := fun k _ =>
        if k = ".navigation-wrapper" then Except.error Err.timeout
        else Except.ok (),
      loadState := fun k _ =>
        if k = "load" then Except.error Err.timeout else Except.ok () }

/-- Claim C4, witness at a concrete environment. -/
theorem C4_fallback_order_witness :
    ((open_menu envC4).1 = Except.ok () ∧
     (open_menu envC4).2 = [(OMStep.panelWait, 5000), (OMStep.whatsNewWait, 5000)]) ∧
    ((navigate envC4).1 = Except.ok () ∧
     (navigate envC4).2 = [(NavStep.goto1, 0), (NavStep.header1, 30000),
        (NavStep.load1, 30000), (NavStep.idle1, 15000)]) :=
  ⟨⟨(C4_fallback_order.1 envC4 Err.timeout rfl rfl rfl rfl).1,
    (C4_fallback_order.1 envC4 Err.timeout rfl rfl rfl rfl).2.1⟩,
   C4_fallback_order.2 envC4 Err.timeout rfl rfl rfl rfl rfl⟩

/-- Claim C5, counterexample: the claim states that every fallback wait
runs with a sub-timeout of at most 60 percent of the primary timeout; but
in open_menu the primary panel wait uses 5000 ms and, as the trace at the
all-timing-out environment shows, every fallback wait also uses 5000 ms,
and 5000 is not at most 60 percent of 5000. -/
theorem C5_counterexample :
    (open_menu envAllWaitsFail).2 =
      [(OMStep.panelWait, 5000), (OMStep.whatsNewWait, 5000),
       (OMStep.backendWait, 5000), (OMStep.servicesWait, 5000)] ∧
    ¬ (10 * 5000 ≤ 6 * 5000) :=
  ⟨rfl, by decide⟩

/-- Claim C5, amended: only the load-state wait of navigate gives its
fallback a shorter sub-timeout (networkidle 15000 ms against load 30000 ms,
which is 50 percent and within the 60 percent bound); the fallback waits of
open_menu and click_login_button reuse the full primary timeout (5000 and
10000 ms respectively), which exceeds the 60 percent bound. -/
theorem C5_amended :
    ((navigate envLoadFail).2 = [(NavStep.goto1, 0), (NavStep.header1, 30000),
        (NavStep.load1, 30000), (NavStep.idle1, 15000)] ∧
      10 * 15000 ≤ 6 * 30000) ∧
    ((open_menu envAllWaitsFail).2 =
        [(OMStep.panelWait, 5000), (OMStep.whatsNewWait, 5000),
         (OMStep.backendWait, 5000), (OMStep.servicesWait, 5000)] ∧
      ¬ (10 * 5000 ≤ 6 * 5000)) ∧
    ((click_login_button envAllWaitsFail).2 =
        [(CLStep.modalWait, 10000), (CLStep.emailWait, 10000),
         (CLStep.passwordWait, 10000)] ∧
      ¬ (10 * 10000 ≤ 6 * 10000)) :=
  ⟨⟨rfl, by decide⟩, ⟨rfl, by decide⟩, ⟨rfl, by decide⟩⟩

/-- Claim C6, counterexample: the claim allows a timeout to propagate only
from the designated post-navigation header-container waits; but when all
four wait conditions of open_menu time out, the final unguarded services
header wait propagates its timeout, although open_menu is not a
post-navigation header wait. -/
theorem C6_counterexample :
    envAllWaitsFail.waitFor "services-header" 5000 = Except.error Err.timeout ∧
    (open_menu envAllWaitsFail).1 = Except.error Err.timeout :=
  ⟨rfl, rfl⟩

/-- Claim C6, amended: waits wrapped in try/except convert a raised
timeout into a false result or fall through (the verification checks, the
load-state waits of navigate); but the set of waits that propagate a
timeout as a hard failure is larger than the designated post-navigation
waits: besides the header-container wait of navigate, the final fallback
wait of open_menu, the footer wait of verify_footer_section and the footer
wait of scroll_to_footer are unguarded and propagate their timeouts to the
caller. -/
theorem C6_amended :
    (∀ (env : Env) (e : Err),
        env.gotoRes "https://habr.com" = Except.ok () →
        env.waitFor "div.tm-header__container" 30000 = Except.error e →
        (navigate env).1 = Except.error e) ∧
    (∀ env : Env,
        env.gotoRes "https://habr.com" = Except.ok () →
        env.waitFor "div.tm-header__container" 30000 = Except.ok () →
        env.urlHasFeed = false →
        (navigate env).1 = Except.ok ()) ∧
    (∀ (env : Env) (e : Err),
        env.visible ".navigation-wrapper" 5000 = Except.error e →
        mp_verify_menu_panel_displayed env = false) ∧
    (∀ (env : Env) (e1 e2 e3 e4 : Err),
        env.click "menu-button" = Except.ok () →
        env.waitFor ".navigation-wrapper" 5000 = Except.error e1 →
        env.waitFor "menu:Что нового" 5000 = Except.error e2 →
        env.waitFor "menu:Бэкенд" 5000 = Except.error e3 →
        env.waitFor "services-header" 5000 = Except.error e4 →
        (open_menu env).1 = Except.error e4) ∧
    (∀ (env : Env) (e : Err),
        env.evaluate "window.scrollTo(0, document.body.scrollHeight)" = Except.ok () →
        env.waitFor ".tm-footer-menu" 5000 = Except.error e →
        verify_footer_section env = Except.error e) ∧
    (∀ (env : Env) (e : Err),
        env.evaluate "window.scrollTo(0, document.body.scrollHeight)" = Except.ok () →
        env.waitFor "div.tm-footer" 5000 = Except.error e →
        scroll_to_footer env = Except.error e) := by
  refine ⟨?_, ?_, ?_, ?_, ?_, ?_⟩
  · intro env e h1 h2
    simp [navigate, h1, h2]
  · intro env h1 h2 h3
    simp [navigate, h1, h2, h3]
  · intro env e h
    simp [mp_verify_menu_panel_displayed, verify_menu_panel_displayedS,
      is_visible_query, h]
  · intro env e1 e2 e3 e4 hc h1 h2 h3 h4
    simp [open_menu, hc, h1, h2, h3, h4]
  · intro env e h1 h2
    simp [verify_footer_section, h1, h2]
  · intro env e h1 h2
    simp [scroll_to_footer, h1, h2]

/-- Claim C6, witness for the amended theorem at concrete environments. -/
theorem C6_amended_witness :
    (navigate envAllWaitsFail).1 = Except.error Err.timeout ∧
    (navigate baseEnv).1 = Except.ok () ∧
    mp_verify_menu_panel_displayed envVisErr = false ∧
    (open_menu envAllWaitsFail).1 = Except.error Err.timeout ∧
    verify_footer_section envAllWaitsFail = Except.error Err.timeout ∧
    scroll_to_footer envAllWaitsFail = Except.error Err.timeout :=
  ⟨C6_amended.1 envAllWaitsFail Err.timeout rfl rfl,
   C6_amended.2.1 baseEnv rfl rfl rfl,
   C6_amended.2.2.1 envVisErr Err.timeout rfl,
   C6_amended.2.2.2.1 envAllWaitsFail Err.timeout Err.timeout Err.timeout
     Err.timeout rfl rfl rfl rfl rfl,
   C6_amended.2.2.2.2.1 envAllWaitsFail Err.timeout rfl rfl,
   C6_amended.2.2.2.2.2 envAllWaitsFail Err.timeout rfl rfl⟩

/-- Claim C7: the cross-frame captcha resolution never propagates an
exception: whatever the engine oracle answers, get_captcha_checkbox is a
total function into an optional locator; and when the frame content is
unreachable (every frame-scoped count raises and the content document
request raises, as under a cross-origin restriction), the resolution
returns none and the verification field is false. -/
theorem C7_frame_unreachable :
    ∀ env : Env,
      (∀ s ∈ captchaSelectorsA, ∃ e, env.count ("fl:" ++ s) = Except.error e) →
      ∀ e2 : Err, env.contentFrame = Except.error e2 →
        get_captcha_checkbox env = none ∧
        verify_captcha_checkbox_exists env = false := by
  intro env h1 e2 h2
  have hfb := phase2_caught_none env e2 h2
  have hget : get_captcha_checkbox env = none := by
    unfold get_captcha_checkbox phase1
    rcases hv : env.visible "captcha-container" 5000 with e3 | vis
    · simpa using hfb
    · cases vis with
      | false => simp
      | true =>
        rw [selectorLoop_none_of_errors _ _ _ (fun s hs => h1 s hs)]
        simpa using hfb
  exact ⟨hget, by simp [verify_captcha_checkbox_exists, hget]⟩

/-- Claim C7, witness at the cross-origin environment. -/
theorem C7_frame_unreachable_witness :
    get_captcha_checkbox envXOrigin = none ∧
    verify_captcha_checkbox_exists envXOrigin = false :=
  C7_frame_unreachable envXOrigin
    (by intro s hs; fin_cases hs <;> exact ⟨Err.crossOrigin, rfl⟩)
    Err.crossOrigin rfl

/-- Claim C8: the readiness check is idempotent: on a session state in
which the condition is already satisfied (the menu panel answers visible),
verify_menu_panel_displayed returns true and leaves the state unchanged,
and so does a second consecutive call on the state the first one
returned. -/
theorem C8_idempotent :
    ∀ s : Env, s.visible ".navigation-wrapper" 5000 = Except.ok true →
      verify_menu_panel_displayedS s = (true, s) ∧
      verify_menu_panel_displayedS (verify_menu_panel_displayedS s).2 = (true, s) := by
  intro s h
  have h1 : verify_menu_panel_displayedS s = (true, s) := by
    simp [verify_menu_panel_displayedS, is_visible_query, h]
  refine ⟨h1, ?_⟩
  rw [h1]
  exact h1

/-- Claim C8, witness at the all-ok environment. -/
theorem C8_idempotent_witness :
    verify_menu_panel_displayedS baseEnv = (true, baseEnv) ∧
    verify_menu_panel_displayedS (verify_menu_panel_displayedS baseEnv).2 =
      (true, baseEnv) :=
  C8_idempotent baseEnv rfl

/-- Claim C9: in every per-element result of verify_menu_options,
verify_services_section, verify_footer_options and verify_social_icons,
clickable true implies visible true; and in verify_login_button clickable
true implies visible true and visible true implies exists true. -/
theorem C9_clickable_imp_visible :
    (∀ (env : Env) (r : List (String × VisClick)),
        verify_menu_options env = Except.ok r →
        ∀ p ∈ r, p.2.clickable = true → p.2.visible = true) ∧
    (∀ (env : Env) (r : ServicesRes),
        verify_services_section env = Except.ok r →
        ∀ p ∈ r.serviceLinks, p.2.clickable = true → p.2.visible = true) ∧
    (∀ (env : Env) (sec : String) (r : List (String × VisClick)),
        verify_footer_options env sec = Except.ok r →
        ∀ p ∈ r, p.2.clickable = true → p.2.visible = true) ∧
    (∀ (env : Env) (r : List (String × VisClick)),
        verify_social_icons env = Except.ok r →
        ∀ p ∈ r, p.2.clickable = true → p.2.visible = true) ∧
    (∀ (env : Env) (r : LoginBtnRes),
        verify_login_button env = Except.ok r →
        (r.clickable = true → r.visible = true) ∧
        (r.visible = true → r.btnExists = true)) := by
  refine ⟨?_, ?_, ?_, ?_, ?_⟩
  · intro env r h p hp hcl
    obtain ⟨a, rfl⟩ := mapME_ok_mem (menuItem env) _ r h p hp
    exact visClickCheck_clickable_imp_visible _ _ _ hcl
  · intro env r h p hp hcl
    rw [verify_services_section_links env r h] at hp
    obtain ⟨a, _, rfl⟩ := List.mem_map.mp hp
    exact visClickCheck_clickable_imp_visible _ _ _ hcl
  · intro env sec r h p hp hcl
    obtain ⟨a, rfl⟩ := mapME_ok_mem (ftrItem env sec) _ r h p hp
    exact visClickCheck_clickable_imp_visible _ _ _ hcl
  · intro env r h p hp hcl
    obtain ⟨a, rfl⟩ := mapME_ok_mem (socItem env) _ r h p hp
    exact visClickCheck_clickable_imp_visible _ _ _ hcl
  · intro env r h
    rw [verify_login_button_ok env r h]
    exact login_button_check_invariant env

/-- Claim C9, witness: apply the theorem at the all-ok environment, at the
menu entry for Что нового and at the login-button record. -/
theorem C9_clickable_imp_visible_witness :
    ((("Что нового", VisClick.mk true true) : String × VisClick).2.visible = true) ∧
    (LoginBtnRes.mk true true true).btnExists = true :=
  ⟨C9_clickable_imp_visible.1 baseEnv (menuOptionNames.map (menuItem baseEnv))
      (mapME_pure _ _) ("Что нового", VisClick.mk true true) (by decide) rfl,
   (C9_clickable_imp_visible.2.2.2.2 baseEnv (LoginBtnRes.mk true true true) rfl).2 rfl⟩

/-- Claim C10: MainPage.verify_menu_panel_hidden reports hidden (true) when
the visibility check raises; the step-layer variant also returns true when
the panel was observed visible and every fallback check raises; while the
displayed-verification maps a raised check to false — inability to observe
is the positive outcome only for the hidden checks. -/
theorem C10_hidden_defaults_true :
    (∀ (env : Env) (e : Err),
        env.visible ".navigation-wrapper" 2000 = Except.error e →
        mp_verify_menu_panel_hidden env = true) ∧
    (∀ (env : Env) (e1 e2 e3 : Err),
        env.visible ".navigation-wrapper" 2000 = Except.ok true →
        env.waitFor "hidden:.navigation-wrapper" 3000 = Except.error e1 →
        env.visible "steps:.navigation-wrapper" 2000 = Except.error e2 →
        env.visible "menu-button" 2000 = Except.error e3 →
        steps_verify_menu_panel_hidden env = true) ∧
    (∀ (env : Env) (e : Err),
        env.visible ".navigation-wrapper" 5000 = Except.error e →
        mp_verify_menu_panel_displayed env = false) := by
  refine ⟨?_, ?_, ?_⟩
  · intro env e h
    simp [mp_verify_menu_panel_hidden, h]
  · intro env e1 e2 e3 h0 h1 h2 h3
    simp [steps_verify_menu_panel_hidden, mp_verify_menu_panel_hidden,
      h0, h1, h2, h3]
  · intro env e h
    simp [mp_verify_menu_panel_displayed, verify_menu_panel_displayedS,
      is_visible_query, h]

/-- Claim C10, witness at concrete environments. -/
theorem C10_hidden_defaults_true_witness :
    mp_verify_menu_panel_hidden envVisErr = true ∧
    steps_verify_menu_panel_hidden envHiddenFail = true ∧
    mp_verify_menu_panel_displayed envVisErr = false :=
  ⟨C10_hidden_defaults_true.1 envVisErr Err.timeout rfl,
   C10_hidden_defaults_true.2.1 envHiddenFail Err.timeout Err.timeout
     Err.timeout rfl rfl rfl rfl,
   C10_hidden_defaults_true.2.2 envVisErr Err.timeout rfl⟩

end HabrUI
